import Mathlib

/-!
Verification of the record-validation pipeline in `processamento.py`.

Python strings are modelled as `List Char` (`Str`); `pandas` cell values that
can hold the float `NaN` sentinel are modelled as `Option Str` (`none` is the
`NaN`/`NaT` sentinel).  Machine arithmetic is exact here (Python integers are
unbounded), so `Nat`/`Int` are used directly.  Fallible code is modelled with
`Except`: the only exception that can escape the per-record processing loop is
the `TypeError` raised by `datetime.strptime` when it receives the float `NaN`
produced by `pd.to_datetime(..., errors='coerce').dt.strftime(...)` for an
unparseable date (only `ValueError` is caught in `validar_data_nascimento`).
-/

namespace Processamento

/-- A Python string, modelled as a list of characters (ASCII semantics for the
case and whitespace operations used by the source). -/
abbrev Str := List Char

/-- Model of Python `str.strip()` restricted to the ASCII whitespace the
source data can contain: drop whitespace from both ends. -/
def pyStrip (l : Str) : Str :=
  (l.dropWhile Char.isWhitespace).rdropWhile Char.isWhitespace

/-- Model of Python `str.upper()` for basic latin letters: `a`..`z` is mapped
to `A`..`Z`, every other character is unchanged. -/
def maiuscula (c : Char) : Char :=
  if 97 ≤ c.toNat ∧ c.toNat ≤ 122 then Char.ofNat (c.toNat - 32) else c

/-- Model of Python `str.lower()` for basic latin letters. -/
def minuscula (c : Char) : Char :=
  if 65 ≤ c.toNat ∧ c.toNat ≤ 90 then Char.ofNat (c.toNat + 32) else c

/-- `str.upper()` on a whole string. -/
def pyUpper (l : Str) : Str := l.map maiuscula

/-- `str.lower()` on a whole string. -/
def pyLower (l : Str) : Str := l.map minuscula

/-- Model of `re.sub(r'\D', '', s)`: keep only decimal digits. -/
def soDigitos (l : Str) : Str := l.filter Char.isDigit

/-- Model of Python `str.zfill(n)` on a sign-free string: left-pad with `'0'`
up to length `n` (strings already at least `n` long are unchanged). -/
def zfill (n : Nat) (l : Str) : Str := List.replicate (n - l.length) '0' ++ l

/-- The normalization applied to the CPF column (line 22 of the source and
again at line 169): strip non-digits, left-pad with zeros to 11 characters. -/
def normalizarCpf (l : Str) : Str := zfill 11 (soDigitos l)

/-- Python substring test `a in t` (contiguous substring). -/
def contem (a t : Str) : Bool :=
  (List.range (t.length + 1)).any fun k => decide ((t.drop k).take a.length = a)

/-- Substring as a proposition: `a` occurs contiguously inside `t`. -/
def Substr (a t : Str) : Prop := ∃ u v, u ++ a ++ v = t

/-- Number of words of a Python string in the sense of `str.split()`:
maximal runs of non-whitespace characters.  A run starts at a non-whitespace
character whose predecessor (a sentinel space for the first character) is
whitespace. -/
def numPalavras (l : Str) : Nat :=
  (l.zip (' ' :: l)).countP fun par => !par.1.isWhitespace && par.2.isWhitespace

/-- A calendar date as carried by the pipeline once parsed. -/
structure Data where
  ano : Nat
  mes : Nat
  dia : Nat
  deriving DecidableEq, Repr

/-- Numeric value of a digit character. -/
def valorDigito (c : Char) : Nat := c.toNat - 48

/-- Modelled from the library call: the `%Y-%m-%d` slice of the permissive
date parsers used by the source (`pd.to_datetime` at line 23 and
`datetime.strptime(s, '%Y-%m-%d')` at line 68).  Exactly the ten-character
zero-padded ISO form is recognised; the year bounds are the `pandas`
`Timestamp` range, and day-of-month validity is approximated by `1..31`.
Formats outside this common slice are abstracted as parse failures. -/
def parseData (s : Str) : Option Data :=
  match s with
  | [a1, a2, a3, a4, t1, b1, b2, t2, c1, c2] =>
    if t1 = '-' ∧ t2 = '-' ∧ ([a1, a2, a3, a4, b1, b2, c1, c2].all Char.isDigit) then
      let ano := ((valorDigito a1 * 10 + valorDigito a2) * 10 + valorDigito a3) * 10
                   + valorDigito a4
      let mes := valorDigito b1 * 10 + valorDigito b2
      let dia := valorDigito c1 * 10 + valorDigito c2
      if 1678 ≤ ano ∧ ano ≤ 2261 ∧ 1 ≤ mes ∧ mes ≤ 12 ∧ 1 ≤ dia ∧ dia ≤ 31 then
        some ⟨ano, mes, dia⟩
      else none
    else none
  | _ => none

/-- Model of `strftime('%Y-%m-%d')`: zero-padded ISO rendering of a date. -/
def formatData (d : Data) : Str :=
  [Nat.digitChar (d.ano / 1000), Nat.digitChar (d.ano / 100 % 10),
   Nat.digitChar (d.ano / 10 % 10), Nat.digitChar (d.ano % 10), '-',
   Nat.digitChar (d.mes / 10), Nat.digitChar (d.mes % 10), '-',
   Nat.digitChar (d.dia / 10), Nat.digitChar (d.dia % 10)]

/-- Line 23 of the source: `pd.to_datetime(col, errors='coerce')` followed by
`.dt.strftime('%Y-%m-%d').str.strip()`.  An unparseable value becomes `NaT`,
which `strftime` renders as the float `NaN` — the explicit invalid sentinel,
modelled as `none`.  A parseable value becomes its zero-padded ISO string. -/
def normalizarData (v : Option Str) : Option Str :=
  v.bind fun s => (parseData s).map formatData

/-- One row of the spreadsheet, with the columns the source reads.  Fields are
Python strings except the date of birth, which can hold the `NaN`/`NaT`
sentinel (`none`) once normalization has run. -/
structure Registro where
  nome : Str
  endereco : Str
  bairro : Str
  cidade : Str
  estado : Str
  curso : Str
  cpf : Str
  dataNascimento : Option Str
  telefone : Str
  faculdade : Str
  cep : Str
  email : Str
  numero : Str
  ra : Str
  deriving DecidableEq

/-- Lines 16–26 of the source, `padronizar_e_limpar_dados` applied to one row:
upper-case and strip the text fields, lower-case and strip the institution,
keep only digits (zero-padding CPF to 11 and CEP to 8), and normalize the
date of birth to ISO or the `NaN` sentinel.  `Email`, `Numero` and `RA` are
not touched by the function. -/
def padronizar (r : Registro) : Registro where
  nome := pyStrip (pyUpper r.nome)
  endereco := pyStrip (pyUpper r.endereco)
  bairro := pyStrip (pyUpper r.bairro)
  cidade := pyStrip (pyUpper r.cidade)
  estado := pyStrip (pyUpper r.estado)
  curso := pyStrip (pyUpper r.curso)
  cpf := pyStrip (normalizarCpf r.cpf)
  dataNascimento := normalizarData r.dataNascimento
  telefone := pyStrip (soDigitos r.telefone)
  faculdade := pyStrip (pyLower r.faculdade)
  cep := pyStrip (zfill 8 (soDigitos r.cep))
  email := r.email
  numero := r.numero
  ra := r.ra

/-- Helper for `dropDuplicates`: keep the rows not seen before, first
occurrence first (the `vistos` accumulator holds the rows already emitted). -/
def ddAux (vistos : List Registro) : List Registro → List Registro
  | [] => []
  | r :: rs => if r ∈ vistos then ddAux vistos rs else r :: ddAux (r :: vistos) rs

/-- Line 27 of the source: `df.drop_duplicates()` — remove exact duplicate
rows, keeping the first occurrence of each. -/
def dropDuplicates (l : List Registro) : List Registro := ddAux [] l

/-- Lines 31–45 of the source: the loop body of `validar_cpf` for one check
digit.  For index `i`, Python computes
`sum(int(cpf[num]) * ((i+1) - num) for num in range(0, i))`. -/
def somaPesos (c : Str) (i : Nat) : Nat :=
  (List.range i).foldl (fun acc num => acc + valorDigito (c.getD num '0') * (i + 1 - num)) 0

/-- One iteration of the check-digit loop: `digit = ((value * 10) % 11) % 10`
must equal `int(cpf[i])`. -/
def digitoConfere (c : Str) (i : Nat) : Bool :=
  decide ((somaPesos c i * 10) % 11 % 10 = valorDigito (c.getD i '0'))

/-- Lines 31–45 of the source, `validar_cpf`: re-normalize the argument,
reject when not exactly 11 characters, reject the all-identical strings
(`cpf in [cpf[0] * 11 for _ in range(10)]` is membership in ten copies of the
same string), then check both verification digits. -/
def validar_cpf (cpf : Str) : Bool :=
  let c := normalizarCpf cpf
  if c.length ≠ 11 then false
  else if c = List.replicate 11 (c.headD '0') then false
  else digitoConfere c 9 && digitoConfere c 10

/-- Character class `\w` of the email regex (ASCII model of Python `\w`). -/
def caracterePalavra (c : Char) : Bool := c.isAlphanum || c = '_'

/-- Character class `[\w\.-]` of the email regex. -/
def caractereLocal (c : Char) : Bool := caracterePalavra c || c = '.' || c = '-'

/-- Lines 48–53 of the source: `re.match(r'^[\w\.-]+@[\w\.-]+\.\w+$', email)`.
The pattern matches exactly the strings with a single `@`, a nonempty
`[\w.-]+` part before it, and after it a nonempty `[\w.-]+` followed by a
final dot and a nonempty `\w+` run; equivalently the segment after the last
dot of the domain is a nonempty word run and the part before that dot is a
nonempty `[\w.-]+` string.  This boolean decomposition implements that last
formulation. -/
def validar_email (email : Str) : Bool :=
  match email.splitOn '@' with
  | [localidade, dominio] =>
    let segs := dominio.splitOn '.'
    decide (localidade ≠ []) && localidade.all caractereLocal &&
    decide (2 ≤ segs.length) &&
    decide (segs.getLastD [] ≠ []) && (segs.getLastD []).all caracterePalavra &&
    decide (segs.dropLast ≠ [[]]) &&
    segs.dropLast.all fun seg => seg.all fun c => caracterePalavra c || c = '-'
  | _ => false

/-- Lines 56–60 of the source: `re.match(r'^\d{10,11}$', str(telefone))` —
all digits, length 10 or 11. -/
def validar_telefone (telefone : Str) : Bool :=
  telefone.all Char.isDigit && (telefone.length = 10 || telefone.length = 11)

/-- Lines 75–79 of the source: `len(nome.split()) >= 2`. -/
def validar_nome_completo (nome : Str) : Bool := 2 ≤ numPalavras nome

/-- Days since 0001-01-01 (rata die minus one) of a proleptic Gregorian date,
used to model `datetime` subtraction: `(d2 - d1).days` equals
`paraDias d2 - paraDias d1` (the time-of-day truncation of `timedelta.days`
is absorbed into the day count chosen for "now"). -/
def paraDias (d : Data) : Nat :=
  365 * (d.ano - 1) + (d.ano - 1) / 4 + (d.ano - 1) / 400 - (d.ano - 1) / 100
    + [0, 31, 59, 90, 120, 151, 181, 212, 243, 273, 304, 334].getD (d.mes - 1) 0
    + (if 2 < d.mes ∧ ((d.ano % 4 = 0 ∧ d.ano % 100 ≠ 0) ∨ d.ano % 400 = 0) then 1 else 0)
    + (d.dia - 1)

/-- Line 69 of the source: `idade = (datetime.now() - data).days // 365`,
with Python floor division (`Int.fdiv`). -/
def idade (hoje : Nat) (d : Data) : Int := Int.fdiv ((hoje : Int) - (paraDias d : Int)) 365

/-- The Python exceptions that can escape the modelled code. -/
inductive PyErr where
  | typeError
  deriving DecidableEq

/-- Lines 63–72 of the source, `validar_data_nascimento`: `datetime.strptime`
raises `TypeError` when handed the float `NaN` sentinel (`none`), and only
`ValueError` is caught; an unparseable string raises `ValueError`, which is
caught and returns `False`; otherwise the age test runs. -/
def validar_data_nascimento (hoje : Nat) (v : Option Str) : Except PyErr Bool :=
  match v with
  | none => .error .typeError
  | some s =>
    match parseData s with
    | none => .ok false
    | some d => .ok (decide (18 ≤ idade hoje d))

/-- The fields of a ViaCEP JSON body that the source reads with `.get`;
`none` models an absent key, `erro` models a truthy `erro` flag. -/
structure DadosCep where
  logradouro : Option Str
  bairro : Option Str
  localidade : Option Str
  uf : Option Str
  erro : Bool

/-- The outcome of one call to the ViaCEP service for a given postal code:
either the transport layer failed (`requests.RequestException`) or a response
with an HTTP status and a JSON body arrived. -/
inductive RespCep where
  | falhaTransporte
  | resposta (status : Nat) (dados : DadosCep)

/-- The empty dict `{}` returned by `validar_cep` on failure. -/
def dadosVazios : DadosCep := ⟨none, none, none, none, false⟩

/-- Lines 82–97 of the source, `validar_cep`: strip non-digits from the
postal code, call the service (modelled by the oracle `busca`), and return
`(False, {})` on transport failure, non-200 status, or an `erro` body;
otherwise `(True, data)`. -/
def validar_cep (busca : Str → RespCep) (cep : Str) : Bool × DadosCep :=
  match busca (soDigitos cep) with
  | .falhaTransporte => (false, dadosVazios)
  | .resposta status dados =>
    if status = 200 then
      if dados.erro then (false, dadosVazios) else (true, dados)
    else (false, dadosVazios)

/-- Whether a lookup outcome is a failure in the sense of lines 88–97:
transport error, non-200 status, or the service `erro` flag. -/
def buscaFalhou (resp : RespCep) : Bool :=
  match resp with
  | .falhaTransporte => true
  | .resposta status dados => !(status = 200 && !dados.erro)

/-- Lines 100–107 of the source, `validar_endereco`: the canonical street
(missing keys default to `''`), upper-cased, must occur inside the reported
street, and the canonical neighborhood, city and state, upper-cased, must
equal the reported ones. -/
def validar_endereco (dados : DadosCep) (endereco bairro cidade estado : Str) : Bool :=
  contem (pyUpper (dados.logradouro.getD [])) endereco &&
  decide (pyUpper (dados.bairro.getD []) = bairro) &&
  decide (pyUpper (dados.localidade.getD []) = cidade) &&
  decide (pyUpper (dados.uf.getD []) = estado)

/-- Lines 129–152 of the source: the validation loop body for one row.
Reasons are appended in program order; the date-of-birth check can raise, in
which case the whole run dies with that exception. -/
def processRow (hoje : Nat) (busca : Str → RespCep) (r : Registro) :
    Except PyErr (List String) :=
  let m : List String := []
  let m := if validar_cpf r.cpf then m else m ++ ["CPF inválido"]
  let m := if validar_nome_completo r.nome then m else m ++ ["Nome incompleto"]
  match validar_data_nascimento hoje r.dataNascimento with
  | .error e => .error e
  | .ok nascimentoOk =>
    let m := if nascimentoOk then m
             else m ++ ["Data de nascimento inválida ou idade menor que 18"]
    let m := if validar_email r.email then m else m ++ ["Email inválido"]
    let m := if validar_telefone r.telefone then m else m ++ ["Telefone inválido"]
    let par := validar_cep busca r.cep
    let m := if !par.1 then m ++ ["CEP inválido"]
             else if !validar_endereco par.2 r.endereco r.bairro r.cidade r.estado then
               m ++ ["Endereço não corresponde ao CEP"]
             else m
    .ok m

/-- The `for index, row in df_limpo.iterrows()` loop of lines 129–152: rows
are processed sequentially and the first uncaught exception aborts the run. -/
def processBatch (hoje : Nat) (busca : Str → RespCep) :
    List Registro → Except PyErr (List (Registro × List String))
  | [] => .ok []
  | r :: rs =>
    match processRow hoje busca r with
    | .error e => .error e
    | .ok m =>
      match processBatch hoje busca rs with
      | .error e => .error e
      | .ok res => .ok ((r, m) :: res)

/-- Lines 121 and 129 of the source composed: normalize, deduplicate and
validate a raw batch. -/
def pipeline (hoje : Nat) (busca : Str → RespCep) (bruto : List Registro) :
    Except PyErr (List (Registro × List String)) :=
  processBatch hoje busca (dropDuplicates (bruto.map padronizar))

/-- Lines 168–172 of the source: the `TIPO` column is `'I'` by default and
`'A'` where the re-normalized CPF is `isin` the re-normalized system CPFs. -/
def classificar (sistema : List Str) (cpf : Str) : String :=
  if normalizarCpf cpf ∈ sistema.map normalizarCpf then "A" else "I"

/-- One entry of the `enderecos` array of the output document. -/
structure EnderecoSaida where
  cep : Str
  logradouro : Str
  bairro : Str
  cidade : Str
  numero : Str
  uf : Str
  deriving DecidableEq

/-- One entry of the `telefones` array of the output document. -/
structure TelefoneSaida where
  tipo : String
  ddd : Str
  telefone : Str
  deriving DecidableEq

/-- One entry of the `informacoesAdicionais` array of the output document. -/
structure InfoAdicional where
  campo : String
  linha : Nat
  coluna : Nat
  valor : Str
  deriving DecidableEq

/-- One element of the JSON array produced by `converter_para_json`
(lines 176–231 of the source). -/
structure Cliente where
  id : Str
  agrupador : Str
  tipoPessoa : String
  nome : Str
  cpf : Str
  dataNascimento : Option Str
  tipo : String
  enderecos : List EnderecoSaida
  emails : List Str
  telefones : List TelefoneSaida
  informacoesAdicionais : List InfoAdicional
  deriving DecidableEq

/-- Lines 178–230 of the source: the dict built for one valid row.  `idx` is
the row's pandas index, which `pd.DataFrame(list_of_rows)` preserves from
`df_limpo`, i.e. the 0-based position of the row in the source sheet; the
emitted `linha` is `index + 2`. -/
def paraCliente (idx : Nat) (r : Registro) (tipo : String) : Cliente where
  id := r.faculdade ++ '-' :: r.cpf
  agrupador := r.faculdade
  tipoPessoa := "FISICA"
  nome := r.nome
  cpf := r.cpf
  dataNascimento := r.dataNascimento
  tipo := tipo
  enderecos := [⟨r.cep, r.endereco, r.bairro, r.cidade, r.numero, r.estado⟩]
  emails := [r.email]
  telefones := [⟨"CELULAR", r.telefone.take 2, r.telefone.drop 2⟩]
  informacoesAdicionais :=
    [⟨"cpf_aluno", idx + 2, 2, r.cpf⟩,
     ⟨"registro_aluno", idx + 2, 12, r.ra⟩,
     ⟨"nome_aluno", idx + 2, 1, r.nome⟩]

/-- Lines 176–231 of the source: the loop over the valid rows (each carrying
its preserved index and its `TIPO` tag). -/
def converter_para_json (linhas : List (Nat × Registro × String)) : List Cliente :=
  linhas.map fun x => paraCliente x.1 x.2.1 x.2.2

/-! ## Specification-side definitions

These re-state, in the spec's own terms, what the claims assert; the theorems
below compare them with the code-side definitions above. -/

/-- The claim C1 conditions, stated from the spec's words: after
digit-extraction and zero-padding the value has exactly 11 digits, the digits
are not all identical, and each check digit equals
`((sum * 10) mod 11) mod 10` of the weighted sum that the spec describes
(weights 10 down to 2 over the first 9 digits, then 11 down to 2 over the
first 10). -/
def cpfEspecificacao (cpf : Str) : Prop :=
  let c := zfill 11 (soDigitos cpf)
  c.length = 11 ∧
  ¬(∀ x ∈ c, ∀ y ∈ c, x = y) ∧
  valorDigito (c.getD 9 '0') =
    (((∑ num ∈ Finset.range 9, valorDigito (c.getD num '0') * (10 - num)) * 10) % 11) % 10 ∧
  valorDigito (c.getD 10 '0') =
    (((∑ num ∈ Finset.range 10, valorDigito (c.getD num '0') * (11 - num)) * 10) % 11) % 10

/-- Claim C5 as stated: the canonical street, uppercased, occurs in the
reported street, while the canonical neighborhood, city and state (as
returned, missing keys read as the empty string) equal the reported values
exactly. -/
def enderecoEspecificacao (dados : DadosCep) (endereco bairro cidade estado : Str) : Prop :=
  Substr (pyUpper (dados.logradouro.getD [])) endereco ∧
  dados.bairro.getD [] = bairro ∧
  dados.localidade.getD [] = cidade ∧
  dados.uf.getD [] = estado

/-- Rule 3 of the spec as a pure predicate on the stored date-of-birth value:
a parseable date with computed age at least 18. -/
def regraNascimento (hoje : Nat) (v : Option Str) : Bool :=
  match v with
  | none => false
  | some s =>
    match parseData s with
    | none => false
    | some d => decide (18 ≤ idade hoje d)

/-- The reason produced by rule 6: lookup failure yields `"CEP inválido"`,
a successful lookup with a mismatched address yields the address reason, and
a matching address yields nothing. -/
def motivoCep (busca : Str → RespCep) (r : Registro) : List String :=
  let par := validar_cep busca r.cep
  if !par.1 then ["CEP inválido"]
  else if !validar_endereco par.2 r.endereco r.bairro r.cidade r.estado then
    ["Endereço não corresponde ao CEP"]
  else []

/-- The spec's description of a record's validation result: one reason per
failing rule, in the fixed rule order (CPF, name, date of birth, email,
phone, postal code / address). -/
def motivosEsperados (hoje : Nat) (busca : Str → RespCep) (r : Registro) : List String :=
  (if validar_cpf r.cpf then [] else ["CPF inválido"]) ++
  (if validar_nome_completo r.nome then [] else ["Nome incompleto"]) ++
  (if regraNascimento hoje r.dataNascimento then []
   else ["Data de nascimento inválida ou idade menor que 18"]) ++
  (if validar_email r.email then [] else ["Email inválido"]) ++
  (if validar_telefone r.telefone then [] else ["Telefone inválido"]) ++
  motivoCep busca r

/-! ## Helper lemmas -/

theorem toNat_ofNat_valido {n : Nat} (h : n < 55296) : (Char.ofNat n).toNat = n := by
  rw [Char.ofNat, dif_pos (Or.inl h)]
  rfl

theorem maiuscula_idem (c : Char) : maiuscula (maiuscula c) = maiuscula c := by
  unfold maiuscula
  by_cases h : 97 ≤ c.toNat ∧ c.toNat ≤ 122
  · have hv : (Char.ofNat (c.toNat - 32)).toNat = c.toNat - 32 :=
      toNat_ofNat_valido (by omega)
    have hn : ¬(97 ≤ (Char.ofNat (c.toNat - 32)).toNat ∧
        (Char.ofNat (c.toNat - 32)).toNat ≤ 122) := by rw [hv]; omega
    rw [if_pos h, if_neg hn]
  · rw [if_neg h, if_neg h]

theorem minuscula_idem (c : Char) : minuscula (minuscula c) = minuscula c := by
  unfold minuscula
  by_cases h : 65 ≤ c.toNat ∧ c.toNat ≤ 90
  · have hv : (Char.ofNat (c.toNat + 32)).toNat = c.toNat + 32 :=
      toNat_ofNat_valido (by omega)
    have hn : ¬(65 ≤ (Char.ofNat (c.toNat + 32)).toNat ∧
        (Char.ofNat (c.toNat + 32)).toNat ≤ 90) := by rw [hv]; omega
    rw [if_pos h, if_neg hn]
  · rw [if_neg h, if_neg h]

theorem nao_branco_de_digito {c : Char} (h : c.isDigit = true) : c.isWhitespace = false := by
  by_contra hb
  rw [Bool.not_eq_false, Char.isWhitespace] at hb
  simp only [Bool.or_eq_true, decide_eq_true_eq] at hb
  rcases hb with ((h1 | h1) | h1) | h1 <;> subst h1 <;> exact absurd h (by decide)

theorem digitChar_fatos : ∀ k, k < 10 →
    (Nat.digitChar k).isDigit = true ∧ valorDigito (Nat.digitChar k) = k := by decide

theorem map_id_de_fixos {f : Char → Char} :
    ∀ {l : Str}, (∀ c ∈ l, f c = c) → l.map f = l := by
  intro l h
  induction l with
  | nil => rfl
  | cons a t ih =>
    rw [List.map_cons, h a (List.mem_cons_self a t),
      ih fun c hc => h c (List.mem_cons_of_mem a hc)]

theorem pyUpper_idem (l : Str) : pyUpper (pyUpper l) = pyUpper l := by
  apply map_id_de_fixos
  intro c hc
  obtain ⟨a, _, rfl⟩ := List.mem_map.mp hc
  exact maiuscula_idem a

theorem mem_de_pyStrip {c : Char} {l : Str} (h : c ∈ pyStrip l) : c ∈ l := by
  unfold pyStrip at h
  have h1 : ∃ t, (l.dropWhile Char.isWhitespace).rdropWhile Char.isWhitespace ++ t
      = l.dropWhile Char.isWhitespace := List.rdropWhile_prefix _ _
  obtain ⟨t, ht⟩ := h1
  have h2 : c ∈ l.dropWhile Char.isWhitespace := by
    rw [← ht]; exact List.mem_append_left _ h
  exact (List.dropWhile_sublist _).subset h2

theorem pyStrip_idem (l : Str) : pyStrip (pyStrip l) = pyStrip l := by
  unfold pyStrip
  have haa : (l.dropWhile Char.isWhitespace).dropWhile Char.isWhitespace
      = l.dropWhile Char.isWhitespace := List.dropWhile_idempotent _ _
  have hm : ((l.dropWhile Char.isWhitespace).rdropWhile Char.isWhitespace).dropWhile
      Char.isWhitespace = (l.dropWhile Char.isWhitespace).rdropWhile Char.isWhitespace := by
    rcases hr : (l.dropWhile Char.isWhitespace).rdropWhile Char.isWhitespace with _ | ⟨x, resto⟩
    · rfl
    · have hex : ∃ t, (l.dropWhile Char.isWhitespace).rdropWhile Char.isWhitespace ++ t
          = l.dropWhile Char.isWhitespace := List.rdropWhile_prefix _ _
      obtain ⟨t, ht⟩ := hex
      rw [hr] at ht
      have hxa : l.dropWhile Char.isWhitespace = x :: (resto ++ t) := by
        rw [← ht]; simp
      have hx : ¬x.isWhitespace = true := by
        have h0 := List.dropWhile_eq_self_iff.mp (hxa ▸ haa) (by simp)
        simpa using h0
      simp [List.dropWhile_cons, hx]
  rw [hm, List.rdropWhile_idempotent]

theorem pyStrip_sem_brancos {l : Str} (h : ∀ c ∈ l, c.isWhitespace = false) :
    pyStrip l = l := by
  unfold pyStrip
  have h1 : l.dropWhile Char.isWhitespace = l := by
    apply List.dropWhile_eq_self_iff.mpr
    intro hl
    have hm : l[0] ∈ l := l.get_mem 0 hl
    simp [h _ hm]
  rw [h1]
  apply List.rdropWhile_eq_self_iff.mpr
  intro hl
  simp [h _ (l.getLast_mem hl)]

theorem pyUpper_de_pyStrip (l : Str) : pyUpper (pyStrip (pyUpper l)) = pyStrip (pyUpper l) := by
  apply map_id_de_fixos
  intro c hc
  obtain ⟨a, _, rfl⟩ := List.mem_map.mp (mem_de_pyStrip hc)
  exact maiuscula_idem a

theorem pyLower_de_pyStrip (l : Str) : pyLower (pyStrip (pyLower l)) = pyStrip (pyLower l) := by
  apply map_id_de_fixos
  intro c hc
  obtain ⟨a, _, rfl⟩ := List.mem_map.mp (mem_de_pyStrip hc)
  exact minuscula_idem a

theorem texto_idem (s : Str) : pyStrip (pyUpper (pyStrip (pyUpper s))) = pyStrip (pyUpper s) := by
  rw [pyUpper_de_pyStrip, pyStrip_idem]

theorem texto_minusculo_idem (s : Str) :
    pyStrip (pyLower (pyStrip (pyLower s))) = pyStrip (pyLower s) := by
  rw [pyLower_de_pyStrip, pyStrip_idem]

theorem digitos_de_zfill {n : Nat} {l : Str} :
    ∀ c ∈ zfill n (soDigitos l), c.isDigit = true := by
  intro c hc
  rw [zfill] at hc
  rcases List.mem_append.mp hc with h1 | h1
  · rw [List.eq_of_mem_replicate h1]; decide
  · exact (List.mem_filter.mp h1).2

theorem pyStrip_de_digitos {l : Str} (h : ∀ c ∈ l, c.isDigit = true) : pyStrip l = l :=
  pyStrip_sem_brancos fun c hc => nao_branco_de_digito (h c hc)

theorem soDigitos_de_digitos {l : Str} (h : ∀ c ∈ l, c.isDigit = true) : soDigitos l = l :=
  List.filter_eq_self.mpr h

theorem comprimento_zfill (n : Nat) (l : Str) : (zfill n l).length = max n l.length := by
  rw [zfill, List.length_append, List.length_replicate]
  omega

theorem zfill_de_comprido {n : Nat} {l : Str} (h : n ≤ l.length) : zfill n l = l := by
  rw [zfill, Nat.sub_eq_zero_of_le h, List.replicate_zero, List.nil_append]

theorem normalizarCpf_fixo (x : Str) :
    pyStrip (normalizarCpf (pyStrip (normalizarCpf x))) = pyStrip (normalizarCpf x) := by
  have hdig : ∀ c ∈ normalizarCpf x, c.isDigit = true := digitos_de_zfill
  have hlen : 11 ≤ (normalizarCpf x).length := by
    rw [normalizarCpf, comprimento_zfill]; omega
  have h2 : normalizarCpf (normalizarCpf x) = normalizarCpf x := by
    show zfill 11 (soDigitos (normalizarCpf x)) = normalizarCpf x
    rw [soDigitos_de_digitos hdig, zfill_de_comprido hlen]
  rw [pyStrip_de_digitos hdig, h2, pyStrip_de_digitos hdig]

theorem telefone_fixo (x : Str) :
    pyStrip (soDigitos (pyStrip (soDigitos x))) = pyStrip (soDigitos x) := by
  have hdig : ∀ c ∈ soDigitos x, c.isDigit = true := fun c hc => (List.mem_filter.mp hc).2
  rw [pyStrip_de_digitos hdig, soDigitos_de_digitos hdig, pyStrip_de_digitos hdig]

theorem cep_fixo (x : Str) :
    pyStrip (zfill 8 (soDigitos (pyStrip (zfill 8 (soDigitos x)))))
      = pyStrip (zfill 8 (soDigitos x)) := by
  have hdig : ∀ c ∈ zfill 8 (soDigitos x), c.isDigit = true := digitos_de_zfill
  have hlen : 8 ≤ (zfill 8 (soDigitos x)).length := by
    rw [comprimento_zfill]; omega
  rw [pyStrip_de_digitos hdig, soDigitos_de_digitos hdig, zfill_de_comprido hlen,
    pyStrip_de_digitos hdig]

theorem limites_de_parse {s : Str} {d : Data} (hp : parseData s = some d) :
    1678 ≤ d.ano ∧ d.ano ≤ 2261 ∧ 1 ≤ d.mes ∧ d.mes ≤ 12 ∧ 1 ≤ d.dia ∧ d.dia ≤ 31 := by
  unfold parseData at hp
  split at hp
  · dsimp only at hp
    split_ifs at hp with h1 h2
    injection hp with hd
    subst hd
    exact h2
  · exact absurd hp (by simp)

theorem parse_de_format {d : Data}
    (h : 1678 ≤ d.ano ∧ d.ano ≤ 2261 ∧ 1 ≤ d.mes ∧ d.mes ≤ 12 ∧ 1 ≤ d.dia ∧ d.dia ≤ 31) :
    parseData (formatData d) = some d := by
  obtain ⟨ha1, ha2, hm1, hm2, hd1, hd2⟩ := h
  have e1 := digitChar_fatos (d.ano / 1000) (by omega)
  have e2 := digitChar_fatos (d.ano / 100 % 10) (by omega)
  have e3 := digitChar_fatos (d.ano / 10 % 10) (by omega)
  have e4 := digitChar_fatos (d.ano % 10) (by omega)
  have e5 := digitChar_fatos (d.mes / 10) (by omega)
  have e6 := digitChar_fatos (d.mes % 10) (by omega)
  have e7 := digitChar_fatos (d.dia / 10) (by omega)
  have e8 := digitChar_fatos (d.dia % 10) (by omega)
  rw [formatData, parseData]
  rw [if_pos ⟨rfl, rfl, by
    simp only [List.all_cons, List.all_nil, Bool.and_eq_true]
    exact ⟨e1.1, e2.1, e3.1, e4.1, e5.1, e6.1, e7.1, e8.1, trivial⟩⟩]
  rw [e1.2, e2.2, e3.2, e4.2, e5.2, e6.2, e7.2, e8.2]
  have hano : ((d.ano / 1000 * 10 + d.ano / 100 % 10) * 10 + d.ano / 10 % 10) * 10
      + d.ano % 10 = d.ano := by omega
  have hmes : d.mes / 10 * 10 + d.mes % 10 = d.mes := by omega
  have hdia : d.dia / 10 * 10 + d.dia % 10 = d.dia := by omega
  rw [hano, hmes, hdia, if_pos ⟨ha1, ha2, hm1, hm2, hd1, hd2⟩]

theorem normalizarData_idem (v : Option Str) :
    normalizarData (normalizarData v) = normalizarData v := by
  cases v with
  | none => rfl
  | some s =>
    show normalizarData ((parseData s).map formatData) = (parseData s).map formatData
    cases hp : parseData s with
    | none => rfl
    | some d =>
      show normalizarData (some (formatData d)) = some (formatData d)
      show (parseData (formatData d)).map formatData = some (formatData d)
      rw [parse_de_format (limites_de_parse hp)]
      rfl

theorem contem_iff {a t : Str} : contem a t = true ↔ Substr a t := by
  constructor
  · intro h
    rw [contem, List.any_eq_true] at h
    obtain ⟨k, _, hd⟩ := h
    rw [decide_eq_true_eq] at hd
    refine ⟨t.take k, (t.drop k).drop a.length, ?_⟩
    calc t.take k ++ a ++ (t.drop k).drop a.length
        = t.take k ++ ((t.drop k).take a.length ++ (t.drop k).drop a.length) := by
          rw [hd, List.append_assoc]
      _ = t.take k ++ t.drop k := by rw [List.take_append_drop]
      _ = t := List.take_append_drop k t
  · rintro ⟨u, v, rfl⟩
    rw [contem, List.any_eq_true]
    refine ⟨u.length, ?_, ?_⟩
    · rw [List.mem_range]
      simp only [List.length_append]
      omega
    · rw [decide_eq_true_eq, List.append_assoc, List.drop_left, List.take_left]

theorem foldl_soma (f : Nat → Nat) (n : Nat) :
    (List.range n).foldl (fun acc num => acc + f num) 0 = ∑ num ∈ Finset.range n, f num := by
  induction n with
  | zero => rfl
  | succ m ih =>
    rw [List.range_succ, List.foldl_append, Finset.sum_range_succ, ih]
    rfl

theorem somaPesos_eq (c : Str) (i : Nat) :
    somaPesos c i = ∑ num ∈ Finset.range i, valorDigito (c.getD num '0') * (i + 1 - num) :=
  foldl_soma _ i

theorem comprimento_de_cpf_valido {cpf : Str} (h : validar_cpf cpf = true) :
    (normalizarCpf cpf).length = 11 := by
  by_contra hne
  simp only [validar_cpf] at h
  rw [if_pos hne] at h
  exact Bool.false_ne_true h

theorem if_acrescenta (c : Bool) (m e : List String) :
    (if c then m else m ++ e) = m ++ (if c then [] else e) := by
  cases c <;> simp

theorem if_acrescenta2 (b1 b2 : Bool) (m e1 e2 : List String) :
    (if b1 then m ++ e1 else if b2 then m ++ e2 else m)
      = m ++ (if b1 then e1 else if b2 then e2 else []) := by
  cases b1 <;> cases b2 <;> simp

theorem validar_data_ok (hoje : Nat) (s : Str) :
    validar_data_nascimento hoje (some s) = .ok (regraNascimento hoje (some s)) := by
  rw [validar_data_nascimento, regraNascimento]
  cases parseData s <;> rfl

theorem processRow_spec (hoje : Nat) (busca : Str → RespCep) (r : Registro) (s : Str)
    (h : r.dataNascimento = some s) :
    processRow hoje busca r = .ok (motivosEsperados hoje busca r) := by
  unfold processRow motivosEsperados motivoCep
  rw [h, validar_data_ok]
  dsimp only
  rw [if_acrescenta, if_acrescenta, if_acrescenta, if_acrescenta, if_acrescenta, if_acrescenta2]
  simp only [List.nil_append, List.append_assoc]

theorem processRow_none (hoje : Nat) (busca : Str → RespCep) (r : Registro)
    (h : r.dataNascimento = none) :
    processRow hoje busca r = .error .typeError := by
  unfold processRow
  rw [h]
  rfl

theorem processBatch_spec (hoje : Nat) (busca : Str → RespCep) :
    ∀ rows : List Registro, (∀ r ∈ rows, r.dataNascimento ≠ none) →
      processBatch hoje busca rows
        = .ok (rows.map fun r => (r, motivosEsperados hoje busca r)) := by
  intro rows h
  induction rows with
  | nil => rfl
  | cons r rs ih =>
    have hr : r.dataNascimento ≠ none := h r (List.mem_cons_self r rs)
    obtain ⟨s, hs⟩ := Option.ne_none_iff_exists'.mp hr
    rw [processBatch, processRow_spec hoje busca r s hs,
      ih fun x hx => h x (List.mem_cons_of_mem r hx)]
    rfl

theorem motivos_nodup (hoje : Nat) (busca : Str → RespCep) (r : Registro) :
    (motivosEsperados hoje busca r).Nodup := by
  simp only [motivosEsperados, motivoCep]
  cases validar_cpf r.cpf <;> cases validar_nome_completo r.nome <;>
    cases regraNascimento hoje r.dataNascimento <;> cases validar_email r.email <;>
      cases validar_telefone r.telefone <;> cases (validar_cep busca r.cep).1 <;>
        cases validar_endereco (validar_cep busca r.cep).2 r.endereco r.bairro r.cidade
          r.estado <;> decide

theorem cep_falha_fst {busca : Str → RespCep} {cep : Str}
    (hf : buscaFalhou (busca (soDigitos cep)) = true) :
    (validar_cep busca cep).1 = false := by
  rcases hb : busca (soDigitos cep) with _ | ⟨status, dados⟩
  · simp only [validar_cep, hb]
  · rw [hb] at hf
    simp only [buscaFalhou] at hf
    simp only [validar_cep, hb]
    by_cases h200 : status = 200
    · subst h200
      rcases herro : dados.erro with _ | _
      · rw [herro] at hf
        simp at hf
      · rfl
    · rw [if_neg h200]

theorem motivoCep_falha {busca : Str → RespCep} {r : Registro}
    (hf : buscaFalhou (busca (soDigitos r.cep)) = true) :
    motivoCep busca r = ["CEP inválido"] := by
  simp only [motivoCep, cep_falha_fst hf]
  rfl

theorem count_segmento {b : Bool} {x y : String} (h : ¬x = y) :
    (if b then ([] : List String) else [x]).count y = 0 := by
  cases b <;> simp [List.count_cons, h]

theorem nao_mem_segmento {b : Bool} {x y : String} (h : ¬y = x) :
    y ∉ (if b then ([] : List String) else [x]) := by
  cases b <;> simp [h]

theorem motivos_cep_exato (hoje : Nat) (busca : Str → RespCep) (r : Registro)
    (hf : buscaFalhou (busca (soDigitos r.cep)) = true) :
    (motivosEsperados hoje busca r).count "CEP inválido" = 1 ∧
      "Endereço não corresponde ao CEP" ∉ motivosEsperados hoje busca r := by
  rw [motivosEsperados, motivoCep_falha hf]
  constructor
  · simp only [List.count_append]
    rw [count_segmento (by decide), count_segmento (by decide), count_segmento (by decide),
      count_segmento (by decide), count_segmento (by decide)]
    simp [List.count_cons]
  · simp only [List.mem_append, not_or]
    exact ⟨⟨⟨⟨⟨nao_mem_segmento (by decide), nao_mem_segmento (by decide)⟩,
      nao_mem_segmento (by decide)⟩, nao_mem_segmento (by decide)⟩,
      nao_mem_segmento (by decide)⟩, by decide⟩

theorem telefone_valido_de_vazio {hoje : Nat} {busca : Str → RespCep} {r : Registro}
    (h : motivosEsperados hoje busca r = []) : validar_telefone r.telefone = true := by
  rw [motivosEsperados] at h
  simp only [List.append_eq_nil] at h
  by_contra hb
  rw [Bool.not_eq_true] at hb
  rw [hb] at h
  simp at h

theorem telefone_comprimento {t : Str} (h : validar_telefone t = true) :
    t.length = 10 ∨ t.length = 11 := by
  rw [validar_telefone, Bool.and_eq_true, Bool.or_eq_true] at h
  rcases h.2 with h1 | h1
  · exact Or.inl (of_decide_eq_true h1)
  · exact Or.inr (of_decide_eq_true h1)

theorem particao_comprimento {α : Type} (p : α → Bool) (l : List α) :
    (l.filter p).length + (l.filter fun x => !p x).length = l.length := by
  induction l with
  | nil => rfl
  | cons a t ih =>
    rcases h : p a with _ | _ <;> simp [List.filter_cons, h] <;> omega

theorem ddAux_comprimento : ∀ (l vistos : List Registro), (ddAux vistos l).length ≤ l.length := by
  intro l
  induction l with
  | nil => intro vistos; exact Nat.le_refl 0
  | cons r rs ih =>
    intro vistos
    rw [ddAux]
    by_cases h : r ∈ vistos
    · rw [if_pos h]
      exact Nat.le_succ_of_le (ih vistos)
    · rw [if_neg h]
      exact Nat.succ_le_succ (ih (r :: vistos))

theorem todos_iguais_iff {c : Str} (h : c.length = 11) :
    (∀ x ∈ c, ∀ y ∈ c, x = y) ↔ c = List.replicate 11 (c.headD '0') := by
  rcases c with _ | ⟨a, t⟩
  · simp at h
  · constructor
    · intro hall
      rw [List.headD_cons]
      exact List.eq_replicate_iff.mpr
        ⟨h, fun b hb => hall b hb a (List.mem_cons_self a t)⟩
    · intro hrep x hx y hy
      rw [List.headD_cons] at hrep
      have hx2 : x ∈ List.replicate 11 a := hrep ▸ hx
      have hy2 : y ∈ List.replicate 11 a := hrep ▸ hy
      rw [List.eq_of_mem_replicate hx2, List.eq_of_mem_replicate hy2]

theorem particao_res (l : List (Registro × List String)) :
    (l.filter fun y => y.2.isEmpty).length + (l.filter fun y => !y.2.isEmpty).length
      = l.length :=
  particao_comprimento (fun y => y.2.isEmpty) l

/-! ## Concrete fixtures for witnesses and counterexamples -/

/-- The day count of 2026-10-12, standing for `datetime.now()` in concrete
instances. -/
def dia0 : Nat := paraDias ⟨2026, 10, 12⟩

/-- A lookup oracle whose transport always fails. -/
def buscaFalha : Str → RespCep := fun _ => .falhaTransporte

/-- A lookup oracle returning the canonical address of the worked example. -/
def buscaPraca : Str → RespCep := fun _ =>
  .resposta 200
    ⟨some "Praca da Se".data, some "Se".data, some "Sao Paulo".data, some "SP".data, false⟩

/-- A fully valid normalized row (the end-to-end example of the spec). -/
def regValida : Registro :=
  ⟨"ANA SILVA".data, "PRACA DA SE".data, "SE".data, "SAO PAULO".data, "SP".data, "ENG".data,
   "11144477735".data, some "2000-01-15".data, "11988887777".data, "fac".data,
   "01001000".data, "a@b.com".data, "10".data, "RA1".data⟩

/-- A raw row whose date-of-birth field does not parse. -/
def regDataInvalida : Registro :=
  ⟨"ana silva".data, "praca da se".data, "se".data, "sao paulo".data, "sp".data, "eng".data,
   "111.444.777-35".data, some "sem data".data, "(11) 98888-7777".data, "FAC".data,
   "01001-000".data, "a@b.com".data, "10".data, "RA1".data⟩

/-- The normalized form of `regDataInvalida`; its date of birth is the `NaN`
sentinel. -/
def regSemData : Registro := padronizar regDataInvalida

/-- A normalized row failing the name rule and the phone rule whose date of
birth also carries the sentinel. -/
def regDuasFalhas : Registro :=
  ⟨"ANA".data, "X".data, [], [], [], [], "11144477735".data, none, "12345".data,
   "fac".data, "01001000".data, "a@b.com".data, "1".data, "R".data⟩

/-- A normalized row failing exactly the name rule and the phone rule, with a
parseable date of birth. -/
def regNomeTelefone : Registro :=
  ⟨"ANA".data, "PRACA DA SE".data, "SE".data, "SAO PAULO".data, "SP".data, "ENG".data,
   "11144477735".data, some "2000-01-15".data, "12345".data, "fac".data, "01001000".data,
   "a@b.com".data, "10".data, "RA1".data⟩

/-- A ViaCEP body with a lowercase canonical neighborhood. -/
def dadosMinusculos : DadosCep := ⟨some [], some ['a'], some [], some [], false⟩

/-! ## Claim theorems -/

/-- C1: for every input string, `validar_cpf` returns `true` if and only if,
after digit-extraction and zero-padding, the value is exactly 11 digits, the
11 digits are not all identical, and the two check digits satisfy the
`((sum * 10) mod 11) mod 10` formula with weights 10..2 over the first 9
digits and 11..2 over the first 10. -/
theorem c1_checksum_cpf (cpf : Str) : validar_cpf cpf = true ↔ cpfEspecificacao cpf := by
  simp only [validar_cpf, cpfEspecificacao, normalizarCpf]
  set c := zfill 11 (soDigitos cpf) with hc
  by_cases h1 : c.length = 11
  · rw [if_neg (not_not_intro h1)]
    by_cases h2 : c = List.replicate 11 (c.headD '0')
    · rw [if_pos h2]
      constructor
      · intro hfalse
        exact absurd hfalse (by simp)
      · rintro ⟨_, hnall, _⟩
        exact absurd ((todos_iguais_iff h1).mpr h2) hnall
    · rw [if_neg h2, Bool.and_eq_true, digitoConfere, digitoConfere, decide_eq_true_eq,
        decide_eq_true_eq]
      have e9 : somaPesos c 9
          = ∑ num ∈ Finset.range 9, valorDigito (c.getD num '0') * (10 - num) := by
        rw [somaPesos_eq]
      have e10 : somaPesos c 10
          = ∑ num ∈ Finset.range 10, valorDigito (c.getD num '0') * (11 - num) := by
        rw [somaPesos_eq]
      rw [e9, e10]
      constructor
      · rintro ⟨h9, h10⟩
        exact ⟨h1, fun hall => h2 ((todos_iguais_iff h1).mp hall), h9.symm, h10.symm⟩
      · rintro ⟨_, _, h9, h10⟩
        exact ⟨h9.symm, h10.symm⟩
  · rw [if_pos h1]
    constructor
    · intro hfalse
      exact absurd hfalse (by simp)
    · rintro ⟨hlen, _⟩
      exact absurd hlen h1

/-- C2: the code stores the `NaN` sentinel for an unparseable date of birth,
but `validar_data_nascimento` then raises `TypeError` (`strptime` rejects the
float and only `ValueError` is caught), so the per-record loop dies instead
of adding the rule-3 reason. -/
theorem c2_data_invalida_quebra :
    (padronizar regDataInvalida).dataNascimento = none ∧
    validar_data_nascimento dia0 none = Except.error PyErr.typeError ∧
    processRow dia0 buscaPraca (padronizar regDataInvalida)
      = Except.error PyErr.typeError :=
  ⟨rfl, rfl, rfl⟩

/-- C3 counterexample: for a record whose stored date of birth is the `NaN`
sentinel, a failed postal-code lookup does not produce the reason
`"CEP inválido"` — the whole run aborts with `TypeError` before rule 6 runs,
so the claim as stated (reason added, run continues) is false. -/
theorem c3_contraexemplo :
    buscaFalhou (buscaFalha (soDigitos regSemData.cep)) = true ∧
    processBatch dia0 buscaFalha [regSemData] = Except.error PyErr.typeError :=
  ⟨rfl, rfl⟩

/-- C3 (amended): when every record's stored date of birth is a string (not
the `NaN` sentinel), the batch completes, each record's outcome is a function
of that record alone, and every record whose lookup fails gets exactly the
single reason `"CEP inválido"` with the address comparison skipped. -/
theorem c3_falha_cep_isolada (hoje : Nat) (busca : Str → RespCep) (rows : List Registro)
    (h : ∀ r ∈ rows, r.dataNascimento ≠ none) :
    processBatch hoje busca rows
      = .ok (rows.map fun r => (r, motivosEsperados hoje busca r)) ∧
    ∀ r ∈ rows, buscaFalhou (busca (soDigitos r.cep)) = true →
      (motivosEsperados hoje busca r).count "CEP inválido" = 1 ∧
      "Endereço não corresponde ao CEP" ∉ motivosEsperados hoje busca r :=
  ⟨processBatch_spec hoje busca rows h,
   fun r _ hf => motivos_cep_exato hoje busca r hf⟩

/-- C3 witness: a concrete one-record batch with a failing lookup. -/
theorem c3_testemunha :
    (∀ r ∈ [regValida], r.dataNascimento ≠ none) ∧
    (processBatch dia0 buscaFalha [regValida]
        = .ok ([regValida].map fun r => (r, motivosEsperados dia0 buscaFalha r)) ∧
      ∀ r ∈ [regValida], buscaFalhou (buscaFalha (soDigitos r.cep)) = true →
        (motivosEsperados dia0 buscaFalha r).count "CEP inválido" = 1 ∧
        "Endereço não corresponde ao CEP" ∉ motivosEsperados dia0 buscaFalha r) :=
  ⟨by decide, c3_falha_cep_isolada dia0 buscaFalha [regValida] (by decide)⟩

/-- C4 counterexample: a record failing rules 2 and 5 whose date of birth is
the sentinel produces no reason list at all — the loop raises `TypeError`
before evaluating rules 4–6, so not every rule is evaluated and no reasons
are accumulated for this `CleanRecord`. -/
theorem c4_contraexemplo :
    validar_nome_completo regDuasFalhas.nome = false ∧
    validar_telefone regDuasFalhas.telefone = false ∧
    processRow dia0 buscaPraca regDuasFalhas = Except.error PyErr.typeError :=
  ⟨rfl, rfl, rfl⟩

/-- C4 (amended): for every record whose stored date of birth is a string,
the loop returns exactly one reason per failing rule, concatenated in the
fixed rule order (CPF, name, date of birth, email, phone, postal code /
address), with no duplicated reason. -/
theorem c4_regras_independentes (hoje : Nat) (busca : Str → RespCep) (r : Registro)
    (s : Str) (h : r.dataNascimento = some s) :
    processRow hoje busca r = .ok (motivosEsperados hoje busca r) ∧
    (motivosEsperados hoje busca r).Nodup :=
  ⟨processRow_spec hoje busca r s h, motivos_nodup hoje busca r⟩

/-- C4 witness: the record failing exactly rules 2 and 5. -/
theorem c4_testemunha :
    regNomeTelefone.dataNascimento = some "2000-01-15".data ∧
    (processRow dia0 buscaPraca regNomeTelefone
        = .ok (motivosEsperados dia0 buscaPraca regNomeTelefone) ∧
      (motivosEsperados dia0 buscaPraca regNomeTelefone).Nodup) :=
  ⟨rfl, c4_regras_independentes dia0 buscaPraca regNomeTelefone "2000-01-15".data rfl⟩

/-- C5 counterexample: the code upper-cases every canonical field before
comparing, so a lowercase canonical neighborhood `"a"` matches the reported
`"A"` even though the claim's raw exact-equality comparison fails — the
claimed equivalence is false at this input. -/
theorem c5_contraexemplo :
    validar_endereco dadosMinusculos "X".data "A".data [] [] = true ∧
    ¬enderecoEspecificacao dadosMinusculos "X".data "A".data [] [] := by
  constructor
  · decide
  · rintro ⟨_, hb, _⟩
    exact absurd hb (by decide)

/-- C5 (amended): the address check passes iff the canonical street,
upper-cased, occurs inside the reported street and the canonical
neighborhood, city and state, each upper-cased, equal the reported values;
missing canonical fields are read as the empty string. -/
theorem c5_endereco (dados : DadosCep) (endereco bairro cidade estado : Str) :
    validar_endereco dados endereco bairro cidade estado = true ↔
      (Substr (pyUpper (dados.logradouro.getD [])) endereco ∧
       pyUpper (dados.bairro.getD []) = bairro ∧
       pyUpper (dados.localidade.getD []) = cidade ∧
       pyUpper (dados.uf.getD []) = estado) := by
  rw [validar_endereco]
  simp only [Bool.and_eq_true, decide_eq_true_eq, contem_iff]
  tauto

/-- C6: a valid record is tagged `"A"` exactly when its normalized identity
number occurs among the normalized reference identity numbers, `"I"`
otherwise, and against an empty reference list the tag is always `"I"`. -/
theorem c6_classificacao (sistema : List Str) (cpf : Str) :
    (classificar sistema cpf = "A" ↔ normalizarCpf cpf ∈ sistema.map normalizarCpf) ∧
    (classificar sistema cpf = "I" ↔ normalizarCpf cpf ∉ sistema.map normalizarCpf) ∧
    classificar [] cpf = "I" := by
  refine ⟨?_, ?_, ?_⟩
  · rw [classificar]
    by_cases h : normalizarCpf cpf ∈ sistema.map normalizarCpf
    · rw [if_pos h]
      exact iff_of_true rfl h
    · rw [if_neg h]
      exact iff_of_false (by decide) h
  · rw [classificar]
    by_cases h : normalizarCpf cpf ∈ sistema.map normalizarCpf
    · rw [if_pos h]
      exact iff_of_false (by decide) (not_not_intro h)
    · rw [if_neg h]
      exact iff_of_true rfl h
  · rw [classificar]
    rfl

/-- C7: per-record normalization is idempotent — applying `padronizar` to an
already-normalized record changes no field. -/
theorem c7_normalizacao_idempotente (r : Registro) :
    padronizar (padronizar r) = padronizar r := by
  simp only [padronizar, Registro.mk.injEq]
  exact ⟨texto_idem _, texto_idem _, texto_idem _, texto_idem _, texto_idem _, texto_idem _,
    normalizarCpf_fixo _, normalizarData_idem _, telefone_fixo _, texto_minusculo_idem _,
    cep_fixo _, trivial, trivial, trivial⟩

/-- C8: the output entry of a valid classified record has
`id = institution ++ "-" ++ cpf` with an 11-digit `cpf`, phone split into the
2-character `ddd` and the remainder, `linha` equal to the 1-based source row
index plus the fixed header offset 1 (i.e. `index + 2`), and fixed `coluna`
literals 2, 12 and 1 for `cpf_aluno`, `registro_aluno` and `nome_aluno`. -/
theorem c8_documento (linhas : List (Nat × Registro × String)) (idx : Nat) (r : Registro)
    (tipo : String) (hmem : (idx, r, tipo) ∈ linhas) (hv : validar_cpf r.cpf = true)
    (hn : normalizarCpf r.cpf = r.cpf) :
    paraCliente idx r tipo ∈ converter_para_json linhas ∧
    r.cpf.length = 11 ∧
    (paraCliente idx r tipo).id = r.faculdade ++ '-' :: r.cpf ∧
    (paraCliente idx r tipo).telefones
      = [⟨"CELULAR", r.telefone.take 2, r.telefone.drop 2⟩] ∧
    (paraCliente idx r tipo).informacoesAdicionais
      = [⟨"cpf_aluno", (idx + 1) + 1, 2, r.cpf⟩,
         ⟨"registro_aluno", (idx + 1) + 1, 12, r.ra⟩,
         ⟨"nome_aluno", (idx + 1) + 1, 1, r.nome⟩] := by
  refine ⟨?_, ?_, rfl, rfl, ?_⟩
  · rw [converter_para_json]
    exact List.mem_map.mpr ⟨(idx, r, tipo), hmem, rfl⟩
  · rw [← hn]
    exact comprimento_de_cpf_valido hv
  · simp only [paraCliente]

/-- C8 witness: the valid example record at source row 0. -/
theorem c8_testemunha :
    ((0, regValida, "I") ∈ [(0, regValida, "I")] ∧ validar_cpf regValida.cpf = true ∧
      normalizarCpf regValida.cpf = regValida.cpf) ∧
    (paraCliente 0 regValida "I" ∈ converter_para_json [(0, regValida, "I")] ∧
      regValida.cpf.length = 11 ∧
      (paraCliente 0 regValida "I").id = regValida.faculdade ++ '-' :: regValida.cpf ∧
      (paraCliente 0 regValida "I").telefones
        = [⟨"CELULAR", regValida.telefone.take 2, regValida.telefone.drop 2⟩] ∧
      (paraCliente 0 regValida "I").informacoesAdicionais
        = [⟨"cpf_aluno", (0 + 1) + 1, 2, regValida.cpf⟩,
           ⟨"registro_aluno", (0 + 1) + 1, 12, regValida.ra⟩,
           ⟨"nome_aluno", (0 + 1) + 1, 1, regValida.nome⟩]) :=
  ⟨⟨by decide, by decide, by decide⟩,
   c8_documento [(0, regValida, "I")] 0 regValida "I" (by decide) (by decide) (by decide)⟩

/-- C9: a record that reaches the document builder (its reason list is empty)
passed the phone rule, so its normalized phone has 10 or 11 digits and the
`[:2]`/`[2:]` split is well defined and non-degenerate. -/
theorem c9_telefone_seguro (hoje : Nat) (busca : Str → RespCep) (r : Registro)
    (h : processRow hoje busca r = .ok []) :
    validar_telefone r.telefone = true ∧ 2 ≤ r.telefone.length ∧
    (r.telefone.take 2).length = 2 ∧
    (r.telefone.drop 2).length = r.telefone.length - 2 ∧
    r.telefone.take 2 ++ r.telefone.drop 2 = r.telefone := by
  rcases hd : r.dataNascimento with _ | s
  · rw [processRow_none hoje busca r hd] at h
    exact absurd h (by simp)
  · rw [processRow_spec hoje busca r s hd] at h
    injection h with hm
    have ht := telefone_valido_de_vazio hm
    have hlen := telefone_comprimento ht
    refine ⟨ht, by omega, ?_, List.length_drop 2 r.telefone,
      List.take_append_drop 2 r.telefone⟩
    rw [List.length_take]
    omega

/-- C9 witness: the valid example record. -/
theorem c9_testemunha :
    processRow dia0 buscaPraca regValida = .ok [] ∧
    (validar_telefone regValida.telefone = true ∧ 2 ≤ regValida.telefone.length ∧
      (regValida.telefone.take 2).length = 2 ∧
      (regValida.telefone.drop 2).length = regValida.telefone.length - 2 ∧
      regValida.telefone.take 2 ++ regValida.telefone.drop 2 = regValida.telefone) :=
  ⟨rfl, c9_telefone_seguro dia0 buscaPraca regValida rfl⟩

/-- C10 counterexample: a record that survives deduplication but whose stored
date of birth is the sentinel is placed in neither set — the run aborts with
`TypeError` and no summary is produced, so the claim as stated fails. -/
theorem c10_contraexemplo :
    dropDuplicates ([regDataInvalida].map padronizar) = [regSemData] ∧
    pipeline dia0 buscaPraca [regDataInvalida] = Except.error PyErr.typeError :=
  ⟨rfl, rfl⟩

/-- C10 (amended): when every normalized deduplicated record carries a string
date of birth, the run completes, every surviving record lands in exactly one
of the valid (`[]` reasons) or invalid set, valid + invalid equals the number
of deduplicated rows, and the `total - valid - invalid` figure printed as
"considered neither" equals exactly the number of rows removed as exact
duplicates. -/
theorem c10_particao (hoje : Nat) (busca : Str → RespCep) (bruto : List Registro)
    (h : ∀ r ∈ dropDuplicates (bruto.map padronizar), r.dataNascimento ≠ none) :
    ∃ res, pipeline hoje busca bruto = .ok res ∧
      (∀ x ∈ res,
        (x.2 = [] → x ∈ res.filter (fun y => y.2.isEmpty) ∧
          x ∉ res.filter fun y => !y.2.isEmpty) ∧
        (x.2 ≠ [] → x ∈ res.filter (fun y => !y.2.isEmpty) ∧
          x ∉ res.filter fun y => y.2.isEmpty)) ∧
      (res.filter fun y => y.2.isEmpty).length + (res.filter fun y => !y.2.isEmpty).length
        = res.length ∧
      res.length = (dropDuplicates (bruto.map padronizar)).length ∧
      (dropDuplicates (bruto.map padronizar)).length ≤ bruto.length ∧
      bruto.length = (res.filter fun y => y.2.isEmpty).length
        + (res.filter fun y => !y.2.isEmpty).length
        + (bruto.length - (dropDuplicates (bruto.map padronizar)).length) := by
  have hdd : (dropDuplicates (bruto.map padronizar)).length ≤ bruto.length := by
    have h1 := ddAux_comprimento (bruto.map padronizar) []
    rw [List.length_map] at h1
    exact h1
  refine ⟨(dropDuplicates (bruto.map padronizar)).map
      fun r => (r, motivosEsperados hoje busca r),
    processBatch_spec hoje busca _ h, ?_, particao_res _, List.length_map _ _, hdd, ?_⟩
  · intro x hx
    constructor
    · intro hv
      refine ⟨List.mem_filter.mpr ⟨hx, by rw [hv]; rfl⟩, ?_⟩
      intro hcon
      have h2 := (List.mem_filter.mp hcon).2
      rw [hv] at h2
      exact absurd h2 (by decide)
    · intro hnv
      refine ⟨List.mem_filter.mpr ⟨hx, ?_⟩, ?_⟩
      · rcases he : x.2 with _ | _
        · exact absurd he hnv
        · rfl
      · intro hcon
        have h2 := (List.mem_filter.mp hcon).2
        exact hnv (List.isEmpty_iff.mp h2)
  · have e2 := particao_res ((dropDuplicates (bruto.map padronizar)).map
      fun r => (r, motivosEsperados hoje busca r))
    have e1 := List.length_map (dropDuplicates (bruto.map padronizar))
      fun r => (r, motivosEsperados hoje busca r)
    omega

/-- C10 witness: a three-row batch with one exact duplicate, one valid record
and one invalid record, under a failing lookup oracle. -/
theorem c10_testemunha :
    (∀ r ∈ dropDuplicates ([regValida, regValida, regNomeTelefone].map padronizar),
      r.dataNascimento ≠ none) ∧
    (∃ res, pipeline dia0 buscaFalha [regValida, regValida, regNomeTelefone] = .ok res ∧
      (∀ x ∈ res,
        (x.2 = [] → x ∈ res.filter (fun y => y.2.isEmpty) ∧
          x ∉ res.filter fun y => !y.2.isEmpty) ∧
        (x.2 ≠ [] → x ∈ res.filter (fun y => !y.2.isEmpty) ∧
          x ∉ res.filter fun y => y.2.isEmpty)) ∧
      (res.filter fun y => y.2.isEmpty).length + (res.filter fun y => !y.2.isEmpty).length
        = res.length ∧
      res.length = (dropDuplicates
        ([regValida, regValida, regNomeTelefone].map padronizar)).length ∧
      (dropDuplicates ([regValida, regValida, regNomeTelefone].map padronizar)).length
        ≤ [regValida, regValida, regNomeTelefone].length ∧
      [regValida, regValida, regNomeTelefone].length
        = (res.filter fun y => y.2.isEmpty).length
          + (res.filter fun y => !y.2.isEmpty).length
          + ([regValida, regValida, regNomeTelefone].length - (dropDuplicates
            ([regValida, regValida, regNomeTelefone].map padronizar)).length)) :=
  ⟨by decide, c10_particao dia0 buscaFalha [regValida, regValida, regNomeTelefone] (by decide)⟩

end Processamento
